import Mathlib

/-!
# Verification of the sentiment-analyser cache, rate limiter and error policy

Shallow embedding of `sentiment_analyser` (Python). Timestamps are natural
numbers (the code uses `datetime.now()` / `time.time()`; only differences and
order comparisons matter). The Python `dict` backing the cache is modelled as
a total function `String → Option CacheEntry`; the rate limiter's
`defaultdict(lambda: (0, 0.0))` is modelled as a total function
`String → Nat × Nat` whose initial value is `fun _ => (0, 0)`.
-/

namespace SentimentAnalyser

/-- `models/api/schema.py`, `EmotionScore`: a label and a confidence score.
The score is a Python float in `[0,1]`; modelled as `ℚ` (only order
comparisons on scores occur in the claims). -/
structure EmotionScore where
  label : String
  score : ℚ
deriving DecidableEq, Repr

/-- One entry of `SentimentCache.cache`: the dict value
`{"timestamp": datetime.now(), "scores": [...]}` stored by `set`. -/
structure CacheEntry where
  timestamp : Nat
  scores : List EmotionScore
deriving DecidableEq, Repr

/-- `services/sentiment/cache.py`, `SentimentCache.__init__`: the dict
`self.cache`, the TTL `self.ttl` and the sweep interval
`self.cleanup_interval` (both stored as timedeltas; modelled in one time
unit). The asyncio lifecycle fields are modelled separately
(`CacheLifecycle`). -/
structure SentimentCache where
  cache : String → Option CacheEntry
  ttl : Nat
  cleanup_interval : Nat

/-- `SentimentCache.get`: `text not in self.cache` → `None`; an entry with
`now - entry["timestamp"] > self.ttl` is deleted and `None` returned;
otherwise the stored scores are returned. The possibly mutated cache is
returned as the second component (Python mutates `self.cache` in place). -/
def SentimentCache.get (c : SentimentCache) (now : Nat) (text : String) :
    Option (List EmotionScore) × SentimentCache :=
  match c.cache text with
  | none => (none, c)
  | some entry =>
    if now - entry.timestamp > c.ttl then
      (none, { c with cache := fun k => if k = text then none else c.cache k })
    else
      (some entry.scores, c)

/-- `SentimentCache.set`: `self.cache[text] = {"timestamp": datetime.now(),
"scores": [...]}` — insert or replace, timestamp is the current time. -/
def SentimentCache.set (c : SentimentCache) (now : Nat) (text : String)
    (scores : List EmotionScore) : SentimentCache :=
  { c with cache := fun k => if k = text then some ⟨now, scores⟩ else c.cache k }

/-- `SentimentCache._cleanup_expired`: collect every key whose entry has
`now - entry["timestamp"] > self.ttl` and delete those keys. -/
def SentimentCache.cleanup_expired (c : SentimentCache) (now : Nat) : SentimentCache :=
  { c with cache := fun k =>
      match c.cache k with
      | none => none
      | some entry => if now - entry.timestamp > c.ttl then none else some entry }

/-- `SentimentCache._cleanup_loop`: while running, sweep then sleep
`cleanup_interval`. `cleanup_loop c ts n` is the cache after the first `n`
sweeps of a loop started at time `ts`: sweep `i` (0-based) runs at time
`ts + i * c.cleanup_interval`. -/
def SentimentCache.cleanup_loop (c : SentimentCache) (ts : Nat) : Nat → SentimentCache
  | 0 => c
  | n + 1 => (c.cleanup_loop ts n).cleanup_expired (ts + n * c.cleanup_interval)

/-- A `SentimentCache` as built by `SentimentCache.__init__`: empty dict. -/
def SentimentCache.init (ttl_minutes cleanup_interval : Nat) : SentimentCache :=
  { cache := fun _ => none, ttl := ttl_minutes, cleanup_interval := cleanup_interval }

/-! ## Rate limiter (`core/middleware.py`, `RateLimitMiddleware.dispatch`) -/

/-- `RateLimitState.requests`: `defaultdict(lambda: (0, 0.0))` from key to
`(count, reset_time)`. -/
def RateLimitRequests : Type := String → Nat × Nat

/-- The fresh `RateLimitState()`: every key reads as the default `(0, 0.0)`. -/
def RateLimitRequests.init : RateLimitRequests := fun _ => (0, 0)

/-- The rate-limiting step of `RateLimitMiddleware.dispatch` (lines 178-199):
read `(count, reset_time)` for `key`; if `now > reset_time` reset to
`(0, now + window)`; increment `count`; write the state back; the request is
allowed iff `count <= limit` (the code raises `RateLimitError` when
`count > limit`, after the write). -/
def check_and_increment (st : RateLimitRequests) (key : String)
    (limit window now : Nat) : Bool × RateLimitRequests :=
  let p := st key
  let q := if now > p.2 then (0, now + window) else p
  let count := q.1 + 1
  let st' : RateLimitRequests := fun k => if k = key then (count, q.2) else st k
  (decide (count ≤ limit), st')

/-- State after `n` successive rate-limited requests for `key`, the `i`-th
(0-based) arriving at time `t i`, starting from `st`. -/
def rlRun (st : RateLimitRequests) (key : String) (limit window : Nat)
    (t : Nat → Nat) : Nat → RateLimitRequests
  | 0 => st
  | n + 1 => (check_and_increment (rlRun st key limit window t n) key limit window (t n)).2

/-- Whether the `(n+1)`-th request (0-based index `n`) is allowed. -/
def rlAllowed (st : RateLimitRequests) (key : String) (limit window : Nat)
    (t : Nat → Nat) (n : Nat) : Bool :=
  (check_and_increment (rlRun st key limit window t n) key limit window (t n)).1

example : (((SentimentCache.init 60 5).set 0 "hi" [⟨"joy", 1⟩]).get 30 "hi").1
    = some [⟨"joy", 1⟩] := by decide
example : (((SentimentCache.init 60 5).set 0 "hi" [⟨"joy", 1⟩]).get 61 "hi").1
    = none := by decide
example : (check_and_increment RateLimitRequests.init "k" 2 10 5).1 = true := by decide
example : rlAllowed RateLimitRequests.init "k" 2 10 (fun _ => 5) 2 = false := by decide

/-! ## Cache lifecycle (`cache.py`, `start` / `stop`)

`start` spawns a fresh asyncio task only when `self._running` is false;
`stop` flips `_running` off, cancels `self.cleanup_task` (when set) and
awaits its termination. Tasks are named by consecutive ids; `live` is the
set (list) of sweep tasks that have been spawned and not yet cancelled, and
`nextId` generates fresh task ids, mirroring the freshness of
`asyncio.create_task` objects. -/

structure CacheLifecycle where
  is_running : Bool
  cleanup_task : Option Nat
  live : List Nat
  nextId : Nat
deriving DecidableEq, Repr

/-- The lifecycle fields set by `SentimentCache.__init__`: not running,
`cleanup_task = None`, no live task. -/
def CacheLifecycle.init : CacheLifecycle :=
  { is_running := false, cleanup_task := none, live := [], nextId := 0 }

/-- `SentimentCache.start`: if not `self._running`, set `_running = True` and
`self.cleanup_task = asyncio.create_task(self._cleanup_loop())`; otherwise do
nothing. -/
def CacheLifecycle.start (c : CacheLifecycle) : CacheLifecycle :=
  if c.is_running then c
  else
    { is_running := true, cleanup_task := some c.nextId,
      live := c.live ++ [c.nextId], nextId := c.nextId + 1 }

/-- `SentimentCache.stop`: if `self._running`, set `_running = False` and,
when `self.cleanup_task` is set, cancel it and await its termination (the
task leaves the live set before `stop` returns); otherwise do nothing. -/
def CacheLifecycle.stop (c : CacheLifecycle) : CacheLifecycle :=
  if c.is_running then
    { c with
      is_running := false,
      live := match c.cleanup_task with
        | some id => c.live.erase id
        | none => c.live }
  else c

/-- A lifecycle call: `await cache.start()` or `await cache.stop()`. -/
inductive LifecycleOp where
  | start : LifecycleOp
  | stop : LifecycleOp
deriving DecidableEq, Repr

/-- Apply one lifecycle call. -/
def CacheLifecycle.apply (c : CacheLifecycle) : LifecycleOp → CacheLifecycle
  | .start => c.start
  | .stop => c.stop

/-- Lifecycle state after a sequence of `start`/`stop` calls on a fresh
cache. -/
def CacheLifecycle.run (ops : List LifecycleOp) : CacheLifecycle :=
  ops.foldl CacheLifecycle.apply CacheLifecycle.init

/-! ## Analyzer (`services/sentiment/analyzer.py`, `analyze_text`) -/

/-- One raw prediction dict from the transformers pipeline: the code probes
`"label" in pred` and `"score" in pred`, so each field is optional. -/
structure RawPred where
  label : Option String
  score : Option ℚ

/-- Python `str.lower()`: lowercase each character. -/
def pyLower (s : String) : String := String.mk (s.toList.map Char.toLower)

/-- `SentimentAnalyzer.analyze_text`, lines 77-101: `None` / non-list / empty
output → `ModelError("Invalid model output format")`; predictions missing
`label` or `score` are skipped; an `EmotionScore` is built from
`pred["label"].lower()` and `pred["score"]`; if no prediction survives,
`ModelError("No valid sentiment predictions")`; otherwise the scores are
returned. The raw pipeline output is the explicit argument (`none` models
`None`-or-not-a-list). -/
def analyze_text (results : Option (List RawPred)) : Except String (List EmotionScore) :=
  match results with
  | none => .error "Invalid model output format"
  | some preds =>
    if preds.isEmpty then .error "Invalid model output format"
    else
      let scores := preds.filterMap (fun p =>
        match p.label, p.score with
        | some lab, some sc => some ⟨pyLower lab, sc⟩
        | _, _ => none)
      if scores.isEmpty then .error "No valid sentiment predictions"
      else .ok scores

/-! ## Response model (`models/api/schema.py`, `SentimentResponse`) -/

/-- `SentimentResponse.sort_scores`: `sorted(v, key=lambda x: x.score,
reverse=True)` — stable sort by score, descending. -/
def sort_scores (v : List EmotionScore) : List EmotionScore :=
  v.mergeSort (fun a b => decide (b.score ≤ a.score))

/-- `SentimentResponse`: text, validated (sorted) scores, status, message,
optional model name. -/
structure SentimentResponse where
  text : String
  scores : List EmotionScore
  status : String
  message : String
  model_name : Option String

/-- Building a `SentimentResponse(text=..., scores=...)` with default status
and message: pydantic runs the `sort_scores` field validator on `scores`. -/
def mkSentimentResponse (text : String) (scores : List EmotionScore) : SentimentResponse :=
  { text := text, scores := sort_scores scores, status := "success",
    message := "Analysis completed successfully", model_name := none }

/-! ## Request validation (`models/api/schema.py`, `SentimentRequest`) -/

/-- Python `str.strip()`: drop leading and trailing whitespace characters. -/
def pyStrip (s : String) : String :=
  String.mk (((s.toList.dropWhile Char.isWhitespace).reverse.dropWhile
    Char.isWhitespace).reverse)

/-- The text a `SentimentRequest` carries for a raw body text, or `none` on
validation failure: `str_strip_whitespace=True` strips the input, the field
constraints require length 1..1000, and `validate_text_content` strips again
and rejects the empty result. -/
def requestText (raw : String) : Option String :=
  let s := pyStrip raw
  if 1 ≤ s.length ∧ s.length ≤ 1000 then
    (if pyStrip s = "" then none else some (pyStrip s))
  else none

/-- Two texts differ only in whitespace: removing every whitespace character
yields the same string. -/
def removeWS (s : String) : String :=
  String.mk (s.toList.filter (fun c => ¬ c.isWhitespace))

example : requestText " hi " = some "hi" := by decide
example : requestText "   " = none := by decide
example : removeWS "hi " = removeWS "hi" := by decide

/-! ## Error taxonomy and client-visible bodies
(`core/errors.py`, `utils/errors.py`, `core/middleware.py`,
`services/sentiment/service.py`) -/

/-- The exception classes defined in `sentiment_analyser/core/errors.py`. -/
def coreErrorsClasses : List String :=
  ["SentimentAnalyzerError", "ValidationError", "ModelError",
   "TextProcessingError", "CacheError", "RateLimitError", "ServiceError",
   "AuthenticationError"]

/-- The exception classes defined in `sentiment_analyser/utils/errors.py`. -/
def utilsErrorsClasses : List String :=
  ["SentimentAnalysisError", "ModelLoadError", "TextProcessingError",
   "ValidationError"]

/-- The module `service.py` line 9 imports `CacheError` from:
`from sentiment_analyser.utils.errors import CacheError`. -/
def serviceCacheErrorImportModule : String := "sentiment_analyser.utils.errors"

/-- The module whose `CacheError` the cache raises (`cache.py` line 7). -/
def cacheCacheErrorModule : String := "sentiment_analyser.core.errors"

/-- A client-visible error body: a code and a message. -/
structure ErrorBody where
  code : String
  message : String
deriving DecidableEq, Repr

/-- An exception as seen by `ErrorHandlingMiddleware` / `to_http_error`:
either a `SentimentAnalyzerError` (carrying its `code`, `message`,
`status_code`) or any other exception, carrying its `str(e)` text. -/
inductive PyExc where
  | analyzerError (code message : String) (status : Nat)
  | generic (text : String)
deriving DecidableEq, Repr

/-- `core/errors.py`, `to_http_error`: a `SentimentAnalyzerError` keeps its
own status, code and message; any other exception becomes a 500 with the
fixed `INTERNAL_ERROR` body. The result is `(status_code, body)`. -/
def to_http_error : PyExc → Nat × ErrorBody
  | .analyzerError code message status => (status, ⟨code, message⟩)
  | .generic _ => (500, ⟨"INTERNAL_ERROR", "An unexpected error occurred"⟩)

/-- `cache.py` line 50: the message of the `CacheError` raised when `get`
fails, `f"Failed to get cache entry: {e}"` — it embeds the underlying
exception's text. -/
def cacheGetErrorMessage (excText : String) : String :=
  "Failed to get cache entry: " ++ excText

/-- `service.py` lines 67-69: the `detail` of the `HTTPException(500)` the
service raises from its catch-all, `f"Error processing sentiment analysis:
{str(e)}"` — the client-visible detail embeds `str(e)`. -/
def serviceErrorDetail (excText : String) : String :=
  "Error processing sentiment analysis: " ++ excText

/-! ## Helper lemmas on the cache -/

theorem get_of_absent (c : SentimentCache) (now : Nat) (t : String)
    (h : c.cache t = none) : c.get now t = (none, c) := by
  simp [SentimentCache.get, h]

theorem set_cache_self (c : SentimentCache) (t0 : Nat) (t : String)
    (s : List EmotionScore) : (c.set t0 t s).cache t = some ⟨t0, s⟩ := by
  simp [SentimentCache.set]

theorem set_cache_ne (c : SentimentCache) (t0 : Nat) (t k : String)
    (s : List EmotionScore) (h : k ≠ t) : (c.set t0 t s).cache k = c.cache k := by
  simp [SentimentCache.set, h]

theorem set_ttl (c : SentimentCache) (t0 : Nat) (t : String)
    (s : List EmotionScore) : (c.set t0 t s).ttl = c.ttl := rfl

theorem get_hit (c : SentimentCache) (now : Nat) (t : String) (e : CacheEntry)
    (hc : c.cache t = some e) (hfresh : now - e.timestamp ≤ c.ttl) :
    c.get now t = (some e.scores, c) := by
  simp [SentimentCache.get, hc, Nat.not_lt.mpr hfresh]

theorem get_expired (c : SentimentCache) (now : Nat) (t : String) (e : CacheEntry)
    (hc : c.cache t = some e) (hexp : now - e.timestamp > c.ttl) :
    (c.get now t).1 = none ∧
      ((c.get now t).2).cache = fun k => if k = t then none else c.cache k := by
  simp [SentimentCache.get, hc, hexp]

/-- Claim C1: after `cache.set(T, S)` at time `t0`, `cache.get(T)` at time
`t1` returns `S` when `t1 - t0 ≤ ttl`; when `t1 - t0 > ttl` it returns
absent and the expired entry is removed from the underlying map by the
lookup; and `cache.get(T)` on a text never set returns absent. -/
theorem cache_get_set_ttl_contract :
    (∀ (c : SentimentCache) (t : String) (s : List EmotionScore) (t0 t1 : Nat),
        t1 - t0 ≤ c.ttl → ((c.set t0 t s).get t1 t).1 = some s) ∧
    (∀ (c : SentimentCache) (t : String) (s : List EmotionScore) (t0 t1 : Nat),
        t1 - t0 > c.ttl →
          ((c.set t0 t s).get t1 t).1 = none ∧
          (((c.set t0 t s).get t1 t).2).cache t = none) ∧
    (∀ (c : SentimentCache) (now : Nat) (t : String),
        c.cache t = none → c.get now t = (none, c)) := by
  refine ⟨?_, ?_, ?_⟩
  · intro c t s t0 t1 h
    have hc : (c.set t0 t s).cache t = some ⟨t0, s⟩ := by
      simp [SentimentCache.set]
    have := get_hit (c.set t0 t s) t1 t ⟨t0, s⟩ hc (by simpa [SentimentCache.set] using h)
    simp [this]
  · intro c t s t0 t1 h
    have hc : (c.set t0 t s).cache t = some ⟨t0, s⟩ := by
      simp [SentimentCache.set]
    have hexp : t1 - (⟨t0, s⟩ : CacheEntry).timestamp > (c.set t0 t s).ttl := by
      simpa [SentimentCache.set] using h
    have h2 := get_expired (c.set t0 t s) t1 t ⟨t0, s⟩ hc hexp
    exact ⟨h2.1, by rw [h2.2]; simp⟩
  · intro c now t h
    exact get_of_absent c now t h

/-- Witness for C1 at concrete inputs: `ttl = 60`, set `"I love this"` at
time 0; a lookup at time 30 hits, a lookup at time 61 misses and removes
the entry, and a never-set text misses. -/
theorem cache_get_set_ttl_contract_witness :
    ((((SentimentCache.init 60 5).set 0 "I love this" [⟨"joy", 1⟩]).get 30
        "I love this").1 = some [⟨"joy", 1⟩]) ∧
    ((((SentimentCache.init 60 5).set 0 "I love this" [⟨"joy", 1⟩]).get 61
        "I love this").1 = none) ∧
    (((SentimentCache.init 60 5).get 30 "never seen") = (none, SentimentCache.init 60 5)) := by
  refine ⟨?_, ?_, ?_⟩
  · exact cache_get_set_ttl_contract.1 (SentimentCache.init 60 5) "I love this"
      [⟨"joy", 1⟩] 0 30 (by decide)
  · exact (cache_get_set_ttl_contract.2.1 (SentimentCache.init 60 5) "I love this"
      [⟨"joy", 1⟩] 0 61 (by decide)).1
  · exact cache_get_set_ttl_contract.2.2 (SentimentCache.init 60 5) 30 "never seen" rfl

/-- Claim C10: `cache.get(T)` never touches an entry for a key other than
`T`; on a hit, and on a miss for an absent key, the cache is returned
entirely unchanged; the only mutation `get` performs is deleting the
expired entry for `T` itself. -/
theorem cache_get_frame :
    (∀ (c : SentimentCache) (now : Nat) (t k : String), k ≠ t →
        ((c.get now t).2).cache k = c.cache k) ∧
    (∀ (c : SentimentCache) (now : Nat) (t : String) (e : CacheEntry),
        c.cache t = some e → now - e.timestamp ≤ c.ttl → (c.get now t).2 = c) ∧
    (∀ (c : SentimentCache) (now : Nat) (t : String),
        c.cache t = none → (c.get now t).2 = c) := by
  refine ⟨?_, ?_, ?_⟩
  · intro c now t k hk
    unfold SentimentCache.get
    cases hc : c.cache t with
    | none => rfl
    | some e =>
      by_cases hexp : now - e.timestamp > c.ttl
      · simp [hc, hexp, hk]
      · simp [hc, hexp]
  · intro c now t e hc hfresh
    simpa using congrArg Prod.snd (get_hit c now t e hc hfresh)
  · intro c now t h
    simpa using congrArg Prod.snd (get_of_absent c now t h)

/-- Witness for C10 at concrete inputs: a lookup of `"other"` (absent) and a
hitting lookup of `"hi"` both leave the map unchanged, and an expired
lookup of `"hi"` leaves the entry for `"bye"` unchanged. -/
theorem cache_get_frame_witness :
    ((((((SentimentCache.init 60 5).set 0 "hi" [⟨"joy", 1⟩]).set 0 "bye"
        [⟨"anger", 1⟩]).get 61 "hi").2).cache "bye" =
      (((SentimentCache.init 60 5).set 0 "hi" [⟨"joy", 1⟩]).set 0 "bye"
        [⟨"anger", 1⟩]).cache "bye") ∧
    ((((SentimentCache.init 60 5).set 0 "hi" [⟨"joy", 1⟩]).get 30 "hi").2 =
      ((SentimentCache.init 60 5).set 0 "hi" [⟨"joy", 1⟩])) ∧
    (((SentimentCache.init 60 5).get 30 "other").2 = SentimentCache.init 60 5) := by
  refine ⟨?_, ?_, ?_⟩
  · exact cache_get_frame.1 _ 61 "hi" "bye" (by decide)
  · exact cache_get_frame.2.1 _ 30 "hi" ⟨0, [⟨"joy", 1⟩]⟩ rfl (by decide)
  · exact cache_get_frame.2.2 _ 30 "other" rfl

/-- Claim C6, counterexample: the raw request texts `"hi "` and `"hi"`
differ only in whitespace and are distinct, yet both validate to the same
request text `"hi"` (`SentimentRequest` strips whitespace via
`str_strip_whitespace=True` and `validate_text_content`), so after the
first request's result is cached under `"hi"`, the second request's lookup
is a cache hit — not a cache miss as the claim states for all such pairs. -/
theorem cache_key_whitespace_counterexample :
    removeWS "hi " = removeWS "hi" ∧ "hi " ≠ "hi" ∧
    requestText "hi" = some "hi" ∧ requestText "hi " = some "hi" ∧
    ((((SentimentCache.init 60 5).set 0 "hi" [⟨"joy", 1⟩]).get 1 "hi").1 =
      some [⟨"joy", 1⟩]) := by
  refine ⟨by decide, by decide, by decide, by decide, by decide⟩

/-- Claim C6, amended: the cache itself performs no normalization — a set on
`T1` followed by a get on any distinct, not previously cached `T2` returns
absent. But the cache is keyed by the *validated* request text, and request
validation strips leading/trailing whitespace, so two raw request texts
with equal stripped forms yield the same validated text (the second such
request is a cache hit of the first); only requests whose validated texts
differ are cache misses of each other. -/
theorem cache_key_exact_amended :
    (∀ (c : SentimentCache) (t0 t1 : Nat) (T1 T2 : String)
        (s : List EmotionScore), T2 ≠ T1 → c.cache T2 = none →
        ((c.set t0 T1 s).get t1 T2).1 = none) ∧
    (∀ r1 r2 : String, pyStrip r1 = pyStrip r2 → requestText r1 = requestText r2) ∧
    (∀ (r1 r2 k1 k2 : String), requestText r1 = some k1 → requestText r2 = some k2 →
        k1 ≠ k2 → ∀ (c : SentimentCache) (t0 t1 : Nat) (s : List EmotionScore),
          c.cache k2 = none → ((c.set t0 k1 s).get t1 k2).1 = none) := by
  have miss : ∀ (c : SentimentCache) (t0 t1 : Nat) (T1 T2 : String)
      (s : List EmotionScore), T2 ≠ T1 → c.cache T2 = none →
      ((c.set t0 T1 s).get t1 T2).1 = none := by
    intro c t0 t1 T1 T2 s hne habs
    have h : (c.set t0 T1 s).cache T2 = none := by
      rw [set_cache_ne c t0 T1 T2 s hne]; exact habs
    rw [get_of_absent _ t1 T2 h]
  refine ⟨miss, ?_, ?_⟩
  · intro r1 r2 h
    unfold requestText
    rw [h]
  · intro r1 r2 k1 k2 _ _ hne c t0 t1 s habs
    exact miss c t0 t1 k1 k2 s (Ne.symm hne) habs

/-- Witness for the amended C6: `"a b"` and `"a  b"` differ in internal
whitespace, validate to distinct texts, and the second lookup misses; while
`" hi"` and `"hi "` strip to the same text. -/
theorem cache_key_exact_amended_witness :
    (requestText "a b" = some "a b") ∧ (requestText "a  b" = some "a  b") ∧
    ((((SentimentCache.init 60 5).set 0 "a b" [⟨"joy", 1⟩]).get 1 "a  b").1 = none) ∧
    (requestText " hi" = requestText "hi ") := by
  refine ⟨by decide, by decide, ?_, ?_⟩
  · exact cache_key_exact_amended.2.2 "a b" "a  b" "a b" "a  b" (by decide) (by decide)
      (by decide) (SentimentCache.init 60 5) 0 1 [⟨"joy", 1⟩] rfl
  · exact cache_key_exact_amended.2.1 " hi" "hi " (by decide)

/-! ## Helper lemmas on the sweep -/

theorem cleanup_expired_ttl (c : SentimentCache) (now : Nat) :
    (c.cleanup_expired now).ttl = c.ttl := rfl

theorem cleanup_loop_ttl (c : SentimentCache) (ts : Nat) :
    ∀ n, (c.cleanup_loop ts n).ttl = c.ttl := by
  intro n
  induction n with
  | zero => rfl
  | succ n ih => simp [SentimentCache.cleanup_loop, SentimentCache.cleanup_expired, ih]

theorem cleanup_expired_of_none (c : SentimentCache) (now : Nat) (k : String)
    (h : c.cache k = none) : (c.cleanup_expired now).cache k = none := by
  simp [SentimentCache.cleanup_expired, h]

theorem cleanup_loop_entry_cases (c : SentimentCache) (ts : Nat) (k : String)
    (e : CacheEntry) (h : c.cache k = some e) :
    ∀ n, (c.cleanup_loop ts n).cache k = some e ∨ (c.cleanup_loop ts n).cache k = none := by
  intro n
  induction n with
  | zero => exact Or.inl h
  | succ n ih =>
    rcases ih with h1 | h1
    · by_cases hexp : (ts + n * c.cleanup_interval) - e.timestamp > c.ttl
      · refine Or.inr ?_
        simp [SentimentCache.cleanup_loop, SentimentCache.cleanup_expired, h1,
          cleanup_loop_ttl c ts n, hexp]
      · refine Or.inl ?_
        simp [SentimentCache.cleanup_loop, SentimentCache.cleanup_expired, h1,
          cleanup_loop_ttl c ts n, hexp]
    · exact Or.inr (by
        simp [SentimentCache.cleanup_loop, SentimentCache.cleanup_expired, h1])

/-- Claim C4, counterexample: an entry can have age exceeding `ttl` after a
wait longer than `cleanup_interval` and still sit in internal storage.
With `ttl = 60` and `cleanup_interval = 50`: insert `"old"` at time 0,
`start()` at time 0, wait from time 10 to time 61 (length 51, longer than
the interval). The sweeps that have run by time 61 are the ones at times 0
and 50 — i.e. `cleanup_loop` with 2 sweeps — and both saw age `≤ ttl`, so
at time 61 the entry is still stored although its age 61 exceeds
`ttl = 60`. The claim demands it be absent from the internal map. -/
theorem cleanup_sweep_timing_counterexample :
    ((((SentimentCache.init 60 50).set 0 "old" [⟨"joy", 1⟩]).cleanup_loop 0 2).cache
        "old" = some ⟨0, [⟨"joy", 1⟩]⟩) ∧
    (61 - 0 > 60) ∧ (61 - 10 > 50) := by
  refine ⟨by decide, by decide, by decide⟩

/-- Claim C4, amended: one sweep pass removes exactly the entries whose age
exceeds `ttl` at the sweep — every entry with `now - created_at > ttl` is
deleted, every entry with `now - created_at ≤ ttl` (and every absent key)
is left unchanged; along the background sweep loop started by `start()`, an
entry is absent from the internal storage as soon as some sweep ran at a
time at which the entry's age exceeded `ttl` (a wait longer than
`cleanup_interval` contains a sweep, so an entry already expired when the
wait began is absent after it); and an entry that expires between sweeps,
while still in storage, is missed and lazily evicted by any lookup. -/
theorem cleanup_expired_exact :
    (∀ (c : SentimentCache) (now : Nat) (k : String) (e : CacheEntry),
        c.cache k = some e → now - e.timestamp > c.ttl →
        (c.cleanup_expired now).cache k = none) ∧
    (∀ (c : SentimentCache) (now : Nat) (k : String) (e : CacheEntry),
        c.cache k = some e → now - e.timestamp ≤ c.ttl →
        (c.cleanup_expired now).cache k = some e) ∧
    (∀ (c : SentimentCache) (now : Nat) (k : String),
        c.cache k = none → (c.cleanup_expired now).cache k = none) ∧
    (∀ (c : SentimentCache) (ts n : Nat) (k : String) (e : CacheEntry),
        c.cache k = some e →
        (∃ i, i < n ∧ (ts + i * c.cleanup_interval) - e.timestamp > c.ttl) →
        (c.cleanup_loop ts n).cache k = none) ∧
    (∀ (c : SentimentCache) (now : Nat) (k : String) (e : CacheEntry),
        c.cache k = some e → now - e.timestamp > c.ttl →
        (c.get now k).1 = none ∧ ((c.get now k).2).cache k = none) := by
  refine ⟨?_, ?_, ?_, ?_, ?_⟩
  · intro c now k e h hexp
    simp [SentimentCache.cleanup_expired, h, hexp]
  · intro c now k e h hfresh
    simp [SentimentCache.cleanup_expired, h, Nat.not_lt.mpr hfresh]
  · intro c now k h
    simp [SentimentCache.cleanup_expired, h]
  · intro c ts n k e h hex
    induction n with
    | zero => omega
    | succ n ih =>
      rcases hex with ⟨i, hi, hexp⟩
      by_cases hin : i < n
      · have h1 := ih ⟨i, hin, hexp⟩
        simpa [SentimentCache.cleanup_loop] using
          cleanup_expired_of_none _ (ts + n * c.cleanup_interval) k h1
      · have hieq : i = n := by omega
        subst hieq
        rcases cleanup_loop_entry_cases c ts k e h i with h1 | h1
        · show ((c.cleanup_loop ts i).cleanup_expired
            (ts + i * c.cleanup_interval)).cache k = none
          simp [SentimentCache.cleanup_expired, h1, cleanup_loop_ttl c ts i, hexp]
        · simpa [SentimentCache.cleanup_loop] using
            cleanup_expired_of_none _ (ts + i * c.cleanup_interval) k h1
  · intro c now k e h hexp
    exact get_expired c now k e h hexp |>.imp id (fun h2 => by rw [h2]; simp)

/-- Witness for the amended C4 at concrete inputs: with `ttl = 60` and
`cleanup_interval = 5`, a sweep at time 61 removes the entry created at 0
and keeps the entry created at 30; the loop started at time 0 has removed
the time-0 entry after 14 sweeps (the sweep at time 65 catches it); and a
plain lookup at time 61 also misses and evicts it. -/
theorem cleanup_expired_exact_witness :
    (((((SentimentCache.init 60 5).set 0 "old" [⟨"joy", 1⟩]).cleanup_expired 61).cache
        "old" = none) ∧
     (((((SentimentCache.init 60 5).set 0 "old" [⟨"joy", 1⟩]).set 30 "new"
        [⟨"joy", 1⟩]).cleanup_expired 61).cache "new" = some ⟨30, [⟨"joy", 1⟩]⟩)) ∧
    ((((SentimentCache.init 60 5).set 0 "old" [⟨"joy", 1⟩]).cleanup_loop 0 14).cache
        "old" = none) ∧
    ((((SentimentCache.init 60 5).set 0 "old" [⟨"joy", 1⟩]).get 61 "old").1 = none) := by
  refine ⟨⟨?_, ?_⟩, ?_, ?_⟩
  · exact cleanup_expired_exact.1 _ 61 "old" ⟨0, [⟨"joy", 1⟩]⟩ rfl (by decide)
  · exact cleanup_expired_exact.2.1 _ 61 "new" ⟨30, [⟨"joy", 1⟩]⟩ rfl (by decide)
  · exact cleanup_expired_exact.2.2.2.1 _ 0 14 "old" ⟨0, [⟨"joy", 1⟩]⟩ rfl
      ⟨13, by decide, by decide⟩
  · exact (cleanup_expired_exact.2.2.2.2 _ 61 "old" ⟨0, [⟨"joy", 1⟩]⟩ rfl (by decide)).1

/-! ## Helper lemmas on the lifecycle -/

/-- The lifecycle invariant: while running, the recorded `cleanup_task` is
the unique live sweep task; while stopped, no sweep task is live. -/
def LifecycleInv (c : CacheLifecycle) : Prop :=
  (c.is_running = true → ∃ id, c.cleanup_task = some id ∧ c.live = [id]) ∧
  (c.is_running = false → c.live = [])

theorem lifecycleInv_init : LifecycleInv CacheLifecycle.init := by
  constructor <;> simp [CacheLifecycle.init]

theorem lifecycleInv_start (c : CacheLifecycle) (h : LifecycleInv c) :
    LifecycleInv c.start := by
  unfold CacheLifecycle.start
  by_cases hr : c.is_running
  · simpa [hr] using h
  · simp only [Bool.not_eq_true] at hr
    refine ⟨?_, ?_⟩
    · intro _
      exact ⟨c.nextId, by simp [hr, h.2 hr]⟩
    · intro hcontra
      simp [hr] at hcontra

theorem lifecycleInv_stop (c : CacheLifecycle) (h : LifecycleInv c) :
    LifecycleInv c.stop := by
  unfold CacheLifecycle.stop
  by_cases hr : c.is_running
  · obtain ⟨id, htask, hlive⟩ := h.1 hr
    refine ⟨?_, ?_⟩
    · intro hcontra
      simp [hr] at hcontra
    · intro _
      simp [hr, htask, hlive, List.erase_cons]
  · simp only [Bool.not_eq_true] at hr
    simpa [hr] using h

theorem lifecycleInv_apply (c : CacheLifecycle) (h : LifecycleInv c)
    (op : LifecycleOp) : LifecycleInv (c.apply op) := by
  cases op
  · exact lifecycleInv_start c h
  · exact lifecycleInv_stop c h

theorem lifecycleInv_run (ops : List LifecycleOp) :
    LifecycleInv (CacheLifecycle.run ops) := by
  suffices h : ∀ (l : List LifecycleOp) (c : CacheLifecycle), LifecycleInv c →
      LifecycleInv (l.foldl CacheLifecycle.apply c) by
    exact h ops CacheLifecycle.init lifecycleInv_init
  intro l
  induction l with
  | nil => intro c hc; exact hc
  | cons op rest ih =>
    intro c hc
    exact ih (c.apply op) (lifecycleInv_apply c hc op)

theorem stop_live_of_inv (c : CacheLifecycle) (h : LifecycleInv c) :
    (c.stop).live = [] := by
  unfold CacheLifecycle.stop
  by_cases hr : c.is_running
  · obtain ⟨id, htask, hlive⟩ := h.1 hr
    simp [hr, htask, hlive, List.erase_cons]
  · simp only [Bool.not_eq_true] at hr
    simpa [hr] using h.2 hr

/-- Claim C5: the lifecycle keeps at most one background sweep task alive in
every state reachable by `start`/`stop` calls; `start` while already
running changes nothing; `stop` leaves no live sweep task (it cancels the
task and awaits it); and `stop` on a never-started cache is a no-op. -/
theorem lifecycle_single_task :
    (∀ c : CacheLifecycle, c.is_running = true → c.start = c) ∧
    (∀ ops : List LifecycleOp, ((CacheLifecycle.run ops).live).length ≤ 1) ∧
    (∀ ops : List LifecycleOp, ((CacheLifecycle.run ops).stop).live = []) ∧
    (CacheLifecycle.init.stop = CacheLifecycle.init) := by
  refine ⟨?_, ?_, ?_, ?_⟩
  · intro c h
    simp [CacheLifecycle.start, h]
  · intro ops
    have h := lifecycleInv_run ops
    by_cases hr : (CacheLifecycle.run ops).is_running
    · obtain ⟨id, _, hlive⟩ := h.1 hr
      simp [hlive]
    · simp only [Bool.not_eq_true] at hr
      simp [h.2 hr]
  · intro ops
    exact stop_live_of_inv _ (lifecycleInv_run ops)
  · rfl

/-- Witness for C5 at concrete inputs: after one `start` the cache is
running and a second `start` is a no-op; a `start`-`start`-`stop` history
has at most one live task at the end, and `stop` after it leaves none. -/
theorem lifecycle_single_task_witness :
    ((CacheLifecycle.run [LifecycleOp.start]).is_running = true) ∧
    ((CacheLifecycle.run [LifecycleOp.start]).start = CacheLifecycle.run [LifecycleOp.start]) ∧
    (((CacheLifecycle.run [LifecycleOp.start, LifecycleOp.start]).live).length ≤ 1) ∧
    (((CacheLifecycle.run [LifecycleOp.start, LifecycleOp.start]).stop).live = []) := by
  refine ⟨by decide, ?_, ?_, ?_⟩
  · exact lifecycle_single_task.1 (CacheLifecycle.run [LifecycleOp.start]) (by decide)
  · exact lifecycle_single_task.2.1 [LifecycleOp.start, LifecycleOp.start]
  · exact lifecycle_single_task.2.2.1 [LifecycleOp.start, LifecycleOp.start]

/-! ## Helper lemmas on the rate limiter -/

theorem cai_reset (st : RateLimitRequests) (key : String) (limit window now : Nat)
    (h : now > (st key).2) :
    (check_and_increment st key limit window now).2 key = (1, now + window) ∧
    (check_and_increment st key limit window now).1 = decide (1 ≤ limit) := by
  simp [check_and_increment, h]

theorem cai_noreset (st : RateLimitRequests) (key : String) (limit window now : Nat)
    (h : ¬ now > (st key).2) :
    (check_and_increment st key limit window now).2 key = ((st key).1 + 1, (st key).2) ∧
    (check_and_increment st key limit window now).1 =
      decide ((st key).1 + 1 ≤ limit) := by
  simp [check_and_increment, h]

theorem cai_frame (st : RateLimitRequests) (key k : String)
    (limit window now : Nat) (h : k ≠ key) :
    (check_and_increment st key limit window now).2 k = st k := by
  simp [check_and_increment, h]

/-- Within one window: starting from a fresh key (stored state `(0, 0)`),
first call at `t 0 ≥ 1` and every call at a time `≤ t 0 + window`, the
stored state after `n ≥ 1` calls is `(n, t 0 + window)`. -/
theorem rlRun_window (st : RateLimitRequests) (key : String)
    (limit window : Nat) (t : Nat → Nat) (hfresh : st key = (0, 0))
    (h0 : 1 ≤ t 0) (hin : ∀ i, t i ≤ t 0 + window) :
    ∀ n, 1 ≤ n → (rlRun st key limit window t n) key = (n, t 0 + window) := by
  intro n
  induction n with
  | zero => omega
  | succ n ih =>
    intro _
    by_cases hn : 1 ≤ n
    · have hprev := ih hn
      have hle : ¬ t n > ((rlRun st key limit window t n) key).2 := by
        rw [hprev]
        simpa using hin n
      have := cai_noreset (rlRun st key limit window t n) key limit window (t n) hle
      show (check_and_increment (rlRun st key limit window t n) key limit window
        (t n)).2 key = _
      rw [this.1, hprev]
    · have hn0 : n = 0 := by omega
      subst hn0
      have hgt : t 0 > ((rlRun st key limit window t 0) key).2 := by
        show t 0 > (st key).2
        rw [hfresh]
        omega
      have := cai_reset (rlRun st key limit window t 0) key limit window (t 0) hgt
      show (check_and_increment (rlRun st key limit window t 0) key limit window
        (t 0)).2 key = _
      rw [this.1]

/-- Claim C2: the rate-limit step reads the stored `(count, reset_at)`; if
`now > reset_at` it resets to count 0 with `reset_at = now + window` before
counting, then increments and allows iff the new count is `≤ limit`.
Consequently, from a fresh key, calls `1..N` within one window are allowed,
the `(N+1)`-th is rejected, and a call after `reset_at` has passed is
allowed again (for `N ≥ 1`). -/
theorem rate_limit_window_contract :
    (∀ (st : RateLimitRequests) (key : String) (limit window now : Nat),
        now > (st key).2 →
        (check_and_increment st key limit window now).2 key = (1, now + window) ∧
        (check_and_increment st key limit window now).1 = decide (1 ≤ limit)) ∧
    (∀ (st : RateLimitRequests) (key : String) (limit window now : Nat),
        now ≤ (st key).2 →
        (check_and_increment st key limit window now).2 key =
          ((st key).1 + 1, (st key).2) ∧
        (check_and_increment st key limit window now).1 =
          decide ((st key).1 + 1 ≤ limit)) ∧
    (∀ (key : String) (N window : Nat) (t : Nat → Nat), 1 ≤ N → 1 ≤ t 0 →
        (∀ i, t i ≤ t 0 + window) →
        (∀ i, i < N → rlAllowed RateLimitRequests.init key N window t i = true) ∧
        rlAllowed RateLimitRequests.init key N window t N = false) ∧
    (∀ (st : RateLimitRequests) (key : String) (N window now : Nat),
        1 ≤ N → now > (st key).2 →
        (check_and_increment st key N window now).1 = true) := by
  have hfresh : ∀ key : String, RateLimitRequests.init key = (0, 0) := fun _ => rfl
  refine ⟨?_, ?_, ?_, ?_⟩
  · intro st key limit window now h
    exact cai_reset st key limit window now h
  · intro st key limit window now h
    exact cai_noreset st key limit window now (by omega)
  · intro key N window t hN h0 hin
    constructor
    · intro i hi
      unfold rlAllowed
      by_cases hi1 : 1 ≤ i
      · have hkey := rlRun_window RateLimitRequests.init key N window t
          (hfresh key) h0 hin i hi1
        have hle : ¬ t i > ((rlRun RateLimitRequests.init key N window t i) key).2 := by
          rw [hkey]; simpa using hin i
        rw [(cai_noreset _ key N window (t i) hle).2, hkey]
        simpa using by omega
      · have hi0 : i = 0 := by omega
        subst hi0
        have hgt : t 0 > ((rlRun RateLimitRequests.init key N window t 0) key).2 := by
          show t 0 > (RateLimitRequests.init key).2
          rw [hfresh key]; omega
        rw [(cai_reset _ key N window (t 0) hgt).2]
        simpa using hN
    · unfold rlAllowed
      have hkey := rlRun_window RateLimitRequests.init key N window t
        (hfresh key) h0 hin N hN
      have hle : ¬ t N > ((rlRun RateLimitRequests.init key N window t N) key).2 := by
        rw [hkey]; simpa using hin N
      rw [(cai_noreset _ key N window (t N) hle).2, hkey]
      simp
  · intro st key N window now hN h
    rw [(cai_reset st key N window now h).2]
    simpa using hN

/-- Witness for C2 at concrete inputs: limit 2, window 10, all calls at
time 5 from a fresh state — calls 1 and 2 allowed, call 3 rejected; and a
call at time 20 against stored reset time 15 is allowed again. -/
theorem rate_limit_window_contract_witness :
    (rlAllowed RateLimitRequests.init "ip:1.2.3.4" 2 10 (fun _ => 5) 0 = true) ∧
    (rlAllowed RateLimitRequests.init "ip:1.2.3.4" 2 10 (fun _ => 5) 1 = true) ∧
    (rlAllowed RateLimitRequests.init "ip:1.2.3.4" 2 10 (fun _ => 5) 2 = false) ∧
    ((check_and_increment (fun _ => (2, 15)) "ip:1.2.3.4" 2 10 20).1 = true) := by
  have h := rate_limit_window_contract.2.2.1 "ip:1.2.3.4" 2 10 (fun _ => 5)
    (by decide) (by decide) (fun i => by simp)
  refine ⟨h.1 0 (by decide), h.1 1 (by decide), h.2, ?_⟩
  exact rate_limit_window_contract.2.2.2 (fun _ => (2, 15)) "ip:1.2.3.4" 2 10 20
    (by decide) (by decide)

/-- Claim C9: the incremented count is written to the per-key state before
any rejection: the stored count after the step is always the (possibly
reset) previous count plus one, a rejected request has stored count
exceeding the limit (so rejected requests consume quota), and repeated
calls within one window drive the stored count to `n` with no bound at the
limit — the state is never rolled back on the error path. -/
theorem rate_limit_rejected_writes_state :
    (∀ (st : RateLimitRequests) (key : String) (limit window now : Nat),
        ((check_and_increment st key limit window now).2 key).1 =
          (if now > (st key).2 then 0 else (st key).1) + 1) ∧
    (∀ (st : RateLimitRequests) (key : String) (limit window now : Nat),
        (check_and_increment st key limit window now).1 = false →
        ((check_and_increment st key limit window now).2 key).1 > limit) ∧
    (∀ (key : String) (limit window t0 n : Nat), 1 ≤ t0 → 1 ≤ n →
        (rlRun RateLimitRequests.init key limit window (fun _ => t0) n) key =
          (n, t0 + window)) := by
  refine ⟨?_, ?_, ?_⟩
  · intro st key limit window now
    by_cases h : now > (st key).2
    · rw [(cai_reset st key limit window now h).1]
      simp [h]
    · rw [(cai_noreset st key limit window now h).1]
      simp [h]
  · intro st key limit window now h
    by_cases hr : now > (st key).2
    · have hc := cai_reset st key limit window now hr
      rw [hc.2] at h
      rw [hc.1]
      simpa using by simpa using h
    · have hc := cai_noreset st key limit window now hr
      rw [hc.2] at h
      rw [hc.1]
      simpa using by simpa using h
  · intro key limit window t0 n h1 hn
    exact rlRun_window RateLimitRequests.init key limit window (fun _ => t0) rfl h1
      (fun i => by simp) n hn

/-- Witness for C9 at concrete inputs: with limit 1, the second call at
time 5 is rejected yet the stored count becomes 2 (> 1), and after 3 calls
from a fresh key the stored count is 3. -/
theorem rate_limit_rejected_writes_state_witness :
    (((check_and_increment (fun _ => (1, 15)) "k" 1 10 5).2 "k").1 = 2) ∧
    ((check_and_increment (fun _ => (1, 15)) "k" 1 10 5).1 = false) ∧
    (((check_and_increment (fun _ => (1, 15)) "k" 1 10 5).2 "k").1 > 1) ∧
    ((rlRun RateLimitRequests.init "k" 1 10 (fun _ => 5) 3) "k" = (3, 15)) := by
  refine ⟨?_, by decide, ?_, ?_⟩
  · have h := rate_limit_rejected_writes_state.1 (fun _ => (1, 15)) "k" 1 10 5
    simpa using h
  · exact rate_limit_rejected_writes_state.2.1 (fun _ => (1, 15)) "k" 1 10 5 (by decide)
  · exact rate_limit_rejected_writes_state.2.2 "k" 1 10 5 3 (by decide) (by decide)

/-- Claim C8: `analyze_text` never returns an empty score list — an error is
raised instead (`ModelError` on empty or invalid model output and when no
prediction survives field filtering); and a successful response's `scores`
is the input score list sorted by score in descending order (a permutation
of the input, pairwise non-increasing in score). -/
theorem analyzer_nonempty_and_sorted :
    (∀ (r : Option (List RawPred)) (s : List EmotionScore),
        analyze_text r = Except.ok s → s ≠ []) ∧
    (∀ (txt : String) (v : List EmotionScore),
        ((mkSentimentResponse txt v).scores).Perm v ∧
        ((mkSentimentResponse txt v).scores).Pairwise
          (fun a b => b.score ≤ a.score)) := by
  constructor
  · intro r s h
    cases r with
    | none => simp [analyze_text] at h
    | some preds =>
      by_cases h1 : preds.isEmpty
      · simp [analyze_text, h1] at h
      · by_cases h2 : (preds.filterMap (fun p =>
            match p.label, p.score with
            | some lab, some sc => some (⟨pyLower lab, sc⟩ : EmotionScore)
            | _, _ => none)).isEmpty
        · simp [analyze_text, h1, h2] at h
        · simp [analyze_text, h1, h2] at h
          intro hs
          rw [h, hs] at h2
          exact h2 rfl
  · intro txt v
    refine ⟨?_, ?_⟩
    · simpa [mkSentimentResponse, sort_scores] using
        List.mergeSort_perm v (fun a b => decide (b.score ≤ a.score))
    · have h := @List.sorted_mergeSort EmotionScore
        (fun a b => decide (b.score ≤ a.score))
        (fun a b c hab hbc => by
          simp only [decide_eq_true_eq] at hab hbc ⊢
          exact le_trans hbc hab)
        (fun a b => by
          simp only [Bool.or_eq_true, decide_eq_true_eq]
          exact le_total b.score a.score)
        v
      show (sort_scores v).Pairwise (fun a b => b.score ≤ a.score)
      unfold sort_scores
      exact h.imp (fun hab => of_decide_eq_true hab)

/-- Witness for C8 at concrete inputs: the raw prediction `{"label": "JOY",
"score": 1}` yields the non-empty list `[("joy", 1)]`, and a response built
from an unsorted two-element list sorts it descending. -/
theorem analyzer_nonempty_and_sorted_witness :
    (analyze_text (some [⟨some "JOY", some 1⟩]) = Except.ok [⟨"joy", 1⟩]) ∧
    ([(⟨"joy", 1⟩ : EmotionScore)] ≠ []) ∧
    ((mkSentimentResponse "hi" [⟨"sadness", 0⟩, ⟨"joy", 1⟩]).scores =
      [⟨"joy", 1⟩, ⟨"sadness", 0⟩]) ∧
    ((mkSentimentResponse "hi" [⟨"sadness", 0⟩, ⟨"joy", 1⟩]).scores).Pairwise
      (fun a b => b.score ≤ a.score) := by
  refine ⟨by rfl, ?_, by simp [mkSentimentResponse, sort_scores, List.mergeSort], ?_⟩
  · exact analyzer_nonempty_and_sorted.1 (some [⟨some "JOY", some 1⟩])
      [⟨"joy", 1⟩] (by rfl)
  · exact (analyzer_nonempty_and_sorted.2 "hi" [⟨"sadness", 0⟩, ⟨"joy", 1⟩]).2

/-- Claim C3: `service.py` imports `CacheError` from
`sentiment_analyser.utils.errors`, but that module defines no `CacheError`
(the class exists only in `sentiment_analyser.core.errors`, the module the
cache raises it from); the import therefore fails and, even repaired to any
class of `utils.errors`, the `except CacheError` clauses could never catch
the cache's `core.errors.CacheError`, so cache errors would not degrade to
a miss as the spec requires. -/
theorem cache_error_wrong_import :
    "CacheError" ∉ utilsErrorsClasses ∧ "CacheError" ∈ coreErrorsClasses ∧
    serviceCacheErrorImportModule ≠ cacheCacheErrorModule := by
  refine ⟨by decide, by decide, by decide⟩

/-- Claim C7, counterexample: the client-visible `detail` of the
`HTTPException(500)` raised by `SentimentService.analyze_sentiment`'s
catch-all embeds `str(e)` verbatim — the body varies with the internal
exception text, so it does not carry only a stable code and message; and a
`CacheError`'s message, forwarded unchanged into the middleware's error
body, likewise embeds the underlying exception text. -/
theorem error_body_leak_counterexample :
    serviceErrorDetail "ZeroDivisionError: division by zero" ≠
      serviceErrorDetail "KeyError: timestamp" ∧
    serviceErrorDetail "ZeroDivisionError: division by zero" =
      "Error processing sentiment analysis: ZeroDivisionError: division by zero" ∧
    (to_http_error (.analyzerError "CACHE_ERROR"
        (cacheGetErrorMessage "KeyError: scores") 500)).2.message =
      "Failed to get cache entry: KeyError: scores" := by
  refine ⟨by decide, by decide, by decide⟩

/-- Claim C7, amended: exceptions reaching the error layer as plain
(non-`SentimentAnalyzerError`) exceptions are converted by `to_http_error`
to the fixed body `INTERNAL_ERROR` / "An unexpected error occurred",
independent of the internal exception text; a `SentimentAnalyzerError`
keeps its own stable code but forwards its message — which for the
service's catch-all `HTTPException` and for `CacheError` embeds internal
exception text. -/
theorem error_body_stable_amended :
    (∀ t : String, to_http_error (.generic t) =
      (500, ⟨"INTERNAL_ERROR", "An unexpected error occurred"⟩)) ∧
    (∀ t1 t2 : String, to_http_error (.generic t1) = to_http_error (.generic t2)) ∧
    (∀ (code message : String) (status : Nat),
      to_http_error (.analyzerError code message status) = (status, ⟨code, message⟩)) := by
  refine ⟨fun t => rfl, fun t1 t2 => rfl, fun code message status => rfl⟩

end SentimentAnalyser
